import Mathlib

/-!
Verification of a minimal HTTP GET file server (`http-server.py`).

The embedding models the server's pure request-handling pipeline:
byte strings are `List Nat` (one `Nat` per byte, UTF-8 for encoded text),
the filesystem is an explicit association list from paths to entries,
and process-level effects (`sys.exit`, uncaught `IndexError`, replying on
the socket) are reified as constructors of small result types.
-/

namespace HttpServer

/-- UTF-8 encoding of a single character, as a list of byte values. -/
def encodeChar (c : Char) : List Nat :=
  let n := c.toNat
  if n < 128 then [n]
  else if n < 2048 then [192 + n / 64, 128 + n % 64]
  else if n < 65536 then [224 + n / 4096, 128 + (n / 64) % 64, 128 + n % 64]
  else [240 + n / 262144, 128 + (n / 4096) % 64, 128 + (n / 64) % 64, 128 + n % 64]

/-- Python's `str.encode()`: UTF-8 bytes of a string (models `'...'.encode()`). -/
def encodeStr (s : String) : List Nat :=
  s.data.foldr (fun c acc => encodeChar c ++ acc) []

/-- `ROOT_DIR = 'public'` from the source. -/
def ROOT_DIR : String := "public"

/-- A filesystem entry: a regular file with contents and an openability flag
(`readable = false` models `open` raising `OSError`, e.g. permission denied),
or a directory with its entry names and a listability flag
(`listable = false` models `os.listdir` raising `OSError`). -/
inductive FSEntry where
  | file (contents : List Nat) (readable : Bool)
  | dir (entries : List String) (listable : Bool)
deriving DecidableEq, Repr

/-- The filesystem visible to the server: paths mapped to entries.
A path absent from the list models `FileNotFoundError` on access. -/
abbrev FS := List (String × FSEntry)

/-- First entry bound to `p` in the filesystem, if any. -/
def fs_lookup (fs : FS) (p : String) : Option FSEntry :=
  match fs with
  | [] => none
  | (q, e) :: rest => if q = p then some e else fs_lookup rest p

/-- The content-type value carried through the code: it starts as the Python
string `''`, directory listings set it to `'text/plain'`, and the file branch
stores the 2-tuple returned by `mimetypes.guess_type`. -/
inductive MimeLabel where
  | str (s : String)
  | tuple (ty : Option String) (enc : Option String)
deriving DecidableEq, Repr

/-- Python `repr` of an optional string: `None`, or the string in single
quotes (as it appears when a tuple is interpolated into an f-string). -/
def pyRepr : Option String → String
  | none => "None"
  | some s => "\x27" ++ s ++ "\x27"

/-- How `f'Content-Type: \x7brequest_mime_type\x7d'` renders the label: a plain
string renders as itself, a tuple as Python prints tuples. -/
def MimeLabel.render : MimeLabel → String
  | .str s => s
  | .tuple a b => "(" ++ pyRepr a ++ ", " ++ pyRepr b ++ ")"

/-- File extension of a path: the characters after the last `.` of the final
path component (input is the reversed character list of the path). -/
def revExt : List Char → List Char → Option String
  | [], _ => none
  | c :: rest, acc =>
    if c = '.' then some (String.mk acc)
    else if c = '/' then none
    else revExt rest (c :: acc)

/-- Extension of a path (without the dot), if the final component has one. -/
def file_ext (path : String) : Option String :=
  revExt path.data.reverse []

/-- Extension-to-MIME-type table used by the guesser. -/
def types_map : List (String × String) :=
  [("html", "text/html"), ("htm", "text/html"), ("txt", "text/plain"),
   ("css", "text/css"), ("js", "text/javascript"), ("json", "application/json"),
   ("png", "image/png"), ("jpg", "image/jpeg"), ("jpeg", "image/jpeg"),
   ("gif", "image/gif"), ("pdf", "application/pdf")]

/-- Models Python's `mimetypes.guess_type`: a best-effort, extension-based
lookup returning a `(type, encoding)` 2-tuple, with `None` components when
the extension is unknown or absent. -/
def guess_type (path : String) : Option String × Option String :=
  match file_ext path with
  | none => (none, none)
  | some e =>
    match types_map.lookup e with
    | some t => (some t, none)
    | none => (none, none)

/-- `generate_not_found_response` from the source.  Note the Content-Length
line: in the source it is a plain string literal, not an f-string, so the
bytes sent are the literal text `\x7blen(not_found_page)\x7d`. -/
def generate_not_found_response : List Nat :=
  let not_found_page := encodeStr "<html><h1>Not found!</h1></html>"
  encodeStr "HTTP/1.1 404 Not Found\r\n"
    ++ encodeStr "Connection: close\r\n"
    ++ encodeStr "Content-Type: text/html\r\n"
    ++ encodeStr "Content-Length: \x7blen(not_found_page)\x7d\r\n\r\n"
    ++ not_found_page

/-- `generate_ok_response` from the source: both header values are genuine
f-strings, so the content type renders via `MimeLabel.render` and the length
is the decimal byte count of the body. -/
def generate_ok_response (request_data : List Nat) (request_mime_type : MimeLabel) : List Nat :=
  encodeStr "HTTP/1.1 OK 200\r\n"
    ++ encodeStr "Connection: close\r\n"
    ++ encodeStr ("Content-Type: " ++ request_mime_type.render ++ "\r\n")
    ++ encodeStr ("Content-Length: " ++ toString request_data.length ++ "\r\n\r\n")
    ++ request_data

/-- `get_request_data` from the source.  `path = ROOT_DIR + request_uri` with
no normalization.  A listable directory folds its entries onto the header
line, setting the MIME label inside the loop (so it stays `''` when the loop
never runs); an unlistable directory raises after the header was already
appended; a readable file yields its bytes and the guessed tuple; an
unopenable or absent path is caught by `except OSError` with data still
`b''` and label `''`. -/
def get_request_data (fs : FS) (request_uri : String) : List Nat × MimeLabel :=
  let path := ROOT_DIR ++ request_uri
  match fs_lookup fs path with
  | some (.dir entries true) =>
    entries.foldl
      (fun acc file => (acc.1 ++ encodeStr (file ++ "\n"), MimeLabel.str "text/plain"))
      (encodeStr ("Contents of " ++ path ++ "\n\n"), MimeLabel.str "")
  | some (.dir _ false) =>
    (encodeStr ("Contents of " ++ path ++ "\n\n"), MimeLabel.str "")
  | some (.file contents true) =>
    (contents, MimeLabel.tuple (guess_type path).1 (guess_type path).2)
  | some (.file _ false) => ([], MimeLabel.str "")
  | none => ([], MimeLabel.str "")

/-- Python's `request.split(' ')` on the character list: split on single
spaces, keeping empty pieces (so the result is never empty). -/
def splitSpAux : List Char → List Char → List (List Char)
  | [], acc => [acc.reverse]
  | c :: rest, acc =>
    if c = ' ' then acc.reverse :: splitSpAux rest []
    else splitSpAux rest (c :: acc)

/-- The space-separated tokens of a request line, as Python's `split(' ')`
produces them. -/
def request_tokens (request : String) : List String :=
  (splitSpAux request.data []).map String.mk

/-- Outcome of `parse_request_line`: `sys.exit(code)`, an uncaught
`IndexError` from `split(' ')[1]`, or the extracted request URI. -/
inductive ParseResult where
  | exit (code : Nat)
  | indexFault
  | uri (u : String)
deriving DecidableEq, Repr

/-- `parse_request_line` from the source: token 0 is the method (`split` never
returns an empty list, so `[0]` cannot fault); a non-`GET` method calls
`sys.exit(1)`; otherwise `split(' ')[1]` is the URI, faulting when there is
no second token. -/
def parse_request_line (request : String) : ParseResult :=
  let tokens := request_tokens request
  let request_method := tokens.headD ""
  if request_method ≠ "GET" then .exit 1
  else
    match tokens with
    | _ :: u :: _ => .uri u
    | _ => .indexFault

/-- Outcome of one iteration of the accept loop in `run_server`:
the process exits, the iteration dies on an uncaught fault, or a response
is sent and the loop continues. -/
inductive ConnResult where
  | exitProcess (code : Nat)
  | fault
  | reply (resp : List Nat)
deriving DecidableEq, Repr

/-- The per-connection body of `run_server`: parse the request line, resolve
the object, then send the OK response when the data is truthy (nonempty
bytes) and the 404 response otherwise. -/
def handle_connection (fs : FS) (request : String) : ConnResult :=
  match parse_request_line request with
  | .exit c => .exitProcess c
  | .indexFault => .fault
  | .uri u =>
    let r := get_request_data fs u
    if r.1 ≠ [] then .reply (generate_ok_response r.1 r.2)
    else .reply generate_not_found_response

/-- Outcome of the `__main__` block: usage message and `sys.exit(1)` on a bad
argument count, an uncaught `ValueError` from `int(sys.argv[2])`, or a call
to `run_server host port`. -/
inductive MainResult where
  | usageExit (code : Nat)
  | intFault
  | run (host : String) (port : Int)
deriving DecidableEq, Repr

/-- The `__main__` block: `sys.argv` has the program name at index 0, so
"exactly two positional arguments" is `len(sys.argv) == 3`; any other length
prints usage and exits with status 1 before any socket is created. -/
def main_entry (argv : List String) : MainResult :=
  if argv.length ≠ 3 then .usageExit 1
  else
    match ((argv.getD 2 "").toInt?) with
    | some p => .run (argv.getD 1 "") p
    | none => .intFault

/-! ### Helper lemmas about the byte encoding -/

theorem string_data_append (a b : String) : (a ++ b).data = a.data ++ b.data := by
  cases a
  cases b
  rfl

theorem foldr_encode_append (l₁ l₂ : List Char) :
    (l₁ ++ l₂).foldr (fun c acc => encodeChar c ++ acc) []
      = l₁.foldr (fun c acc => encodeChar c ++ acc) []
        ++ l₂.foldr (fun c acc => encodeChar c ++ acc) [] := by
  induction l₁ with
  | nil => simp
  | cons c cs ih => simp [ih]

theorem encodeStr_append (a b : String) :
    encodeStr (a ++ b) = encodeStr a ++ encodeStr b := by
  unfold encodeStr
  rw [string_data_append, foldr_encode_append]

/-- The definitional unfolding of `encodeChar`, with the local `let` removed. -/
theorem encodeChar_eq (c : Char) :
    encodeChar c =
      if c.toNat < 128 then [c.toNat]
      else if c.toNat < 2048 then [192 + c.toNat / 64, 128 + c.toNat % 64]
      else if c.toNat < 65536 then
        [224 + c.toNat / 4096, 128 + c.toNat / 64 % 64, 128 + c.toNat % 64]
      else
        [240 + c.toNat / 262144, 128 + c.toNat / 4096 % 64,
         128 + c.toNat / 64 % 64, 128 + c.toNat % 64] := rfl

theorem encodeChar_ne_nil (c : Char) : encodeChar c ≠ [] := by
  rw [encodeChar_eq]
  split_ifs <;> simp

theorem encodeStr_ne_nil (s : String) (h : s.data ≠ []) : encodeStr s ≠ [] := by
  unfold encodeStr
  cases hd : s.data with
  | nil => exact absurd hd h
  | cons c cs =>
    simp only [List.foldr_cons]
    intro hcontra
    exact encodeChar_ne_nil c (List.append_eq_nil.mp hcontra).1

/-- A character whose code point is 10 is the newline character. -/
theorem char_eq_newline (c : Char) (h : c.toNat = 10) : c = '\n' :=
  Char.eq_of_val_eq (UInt32.eq_of_toBitVec_eq (BitVec.eq_of_toNat_eq h))

/-- Number of newline bytes (value 10) in a byte string: the number of lines
of a body that ends in a newline on every line. -/
def count_nl : List Nat → Nat
  | [] => 0
  | b :: rest => (if b = 10 then 1 else 0) + count_nl rest

theorem count_nl_append (l₁ l₂ : List Nat) :
    count_nl (l₁ ++ l₂) = count_nl l₁ + count_nl l₂ := by
  induction l₁ with
  | nil => simp [count_nl]
  | cons b rest ih => simp [count_nl, ih]; omega

/-- UTF-8 encoding produces one newline byte for the newline character and
none for any other character: multi-byte sequences use only bytes ≥ 128. -/
theorem count_nl_encodeChar (c : Char) :
    count_nl (encodeChar c) = if c = '\n' then 1 else 0 := by
  rw [encodeChar_eq]
  by_cases h10 : c.toNat = 10
  · rw [char_eq_newline c h10]
    decide
  · have hne : ¬ c = '\n' := fun hc => h10 (by rw [hc]; rfl)
    simp only [hne, if_false]
    revert h10
    generalize c.toNat = n
    intro h10
    by_cases h1 : n < 128
    · simp [h1, count_nl, h10]
    · by_cases h2 : n < 2048
      · have ha : 192 + n / 64 ≠ 10 := by omega
        have hb : 128 + n % 64 ≠ 10 := by omega
        simp [h1, h2, count_nl, ha, hb]
      · by_cases h3 : n < 65536
        · have ha : 224 + n / 4096 ≠ 10 := by omega
          have hb : 128 + n / 64 % 64 ≠ 10 := by omega
          have hc : 128 + n % 64 ≠ 10 := by omega
          simp [h1, h2, h3, count_nl, ha, hb, hc]
        · have ha : 240 + n / 262144 ≠ 10 := by omega
          have hb : 128 + n / 4096 % 64 ≠ 10 := by omega
          have hc : 128 + n / 64 % 64 ≠ 10 := by omega
          have hd : 128 + n % 64 ≠ 10 := by omega
          simp [h1, h2, h3, count_nl, ha, hb, hc, hd]

theorem count_nl_encodeStr_eq_count (s : String) :
    count_nl (encodeStr s) = s.data.count '\n' := by
  unfold encodeStr
  induction s.data with
  | nil => rfl
  | cons c cs ih =>
    simp only [List.foldr_cons, count_nl_append, ih, List.count_cons]
    rw [count_nl_encodeChar]
    by_cases hc : c = '\n'
    · simp [hc]
      omega
    · simp [hc]

theorem count_nl_encodeStr_zero (s : String) (h : '\n' ∉ s.data) :
    count_nl (encodeStr s) = 0 := by
  rw [count_nl_encodeStr_eq_count]
  exact List.count_eq_zero.mpr h

/-! ### Helper lemmas about the response builders and the directory fold -/

theorem ok_response_bytes (d : List Nat) (m : MimeLabel) :
    generate_ok_response d m =
      encodeStr ("HTTP/1.1 OK 200\r\nConnection: close\r\nContent-Type: " ++ m.render
        ++ "\r\nContent-Length: " ++ toString d.length ++ "\r\n\r\n") ++ d := by
  have h1 : ("HTTP/1.1 OK 200\r\nConnection: close\r\nContent-Type: " : String)
      = "HTTP/1.1 OK 200\r\n" ++ "Connection: close\r\n" ++ "Content-Type: " := by decide
  have h2 : ("\r\nContent-Length: " : String) = "\r\n" ++ "Content-Length: " := by decide
  rw [h1, h2]
  unfold generate_ok_response
  simp only [encodeStr_append, List.append_assoc]

theorem dir_fold_fst (entries : List String) (d : List Nat) (m : MimeLabel) :
    (entries.foldl
        (fun acc file => (acc.1 ++ encodeStr (file ++ "\n"), MimeLabel.str "text/plain"))
        (d, m)).1
      = d ++ entries.foldr (fun file r => encodeStr (file ++ "\n") ++ r) [] := by
  induction entries generalizing d m with
  | nil => simp
  | cons f rest ih => simp [ih, List.append_assoc]

theorem dir_fold_snd (entries : List String) (d : List Nat) (m : MimeLabel) :
    (entries.foldl
        (fun acc file => (acc.1 ++ encodeStr (file ++ "\n"), MimeLabel.str "text/plain"))
        (d, m)).2
      = if entries.isEmpty then m else MimeLabel.str "text/plain" := by
  induction entries generalizing d m with
  | nil => rfl
  | cons f rest ih => simp [ih]

theorem count_nl_dir_entries (entries : List String)
    (h : ∀ e ∈ entries, '\n' ∉ e.data) :
    count_nl (entries.foldr (fun file r => encodeStr (file ++ "\n") ++ r) [])
      = entries.length := by
  induction entries with
  | nil => rfl
  | cons f rest ih =>
    simp only [List.foldr_cons, count_nl_append, List.length_cons]
    rw [encodeStr_append, count_nl_append]
    rw [count_nl_encodeStr_zero f (h f (by simp))]
    rw [ih (fun e he => h e (by simp [he]))]
    have hn : count_nl (encodeStr "\n") = 1 := by decide
    omega

theorem count_nl_header (p : String) (h : '\n' ∉ p.data) :
    count_nl (encodeStr ("Contents of " ++ p ++ "\n\n")) = 2 := by
  rw [encodeStr_append, encodeStr_append, count_nl_append, count_nl_append]
  rw [count_nl_encodeStr_zero p h]
  have h1 : count_nl (encodeStr "Contents of ") = 0 := by decide
  have h2 : count_nl (encodeStr "\n\n") = 2 := by decide
  omega

theorem contents_header_ne_nil (p : String) :
    encodeStr ("Contents of " ++ p ++ "\n\n") ≠ [] := by
  apply encodeStr_ne_nil
  rw [string_data_append, string_data_append]
  intro hc
  have h1 := (List.append_eq_nil.mp hc).1
  have h2 := (List.append_eq_nil.mp h1).1
  exact absurd h2 (by decide)

theorem no_nl_root_path (uri : String) (h : '\n' ∉ uri.data) :
    '\n' ∉ (ROOT_DIR ++ uri).data := by
  rw [string_data_append]
  intro hc
  rcases List.mem_append.mp hc with h1 | h1
  · exact absurd h1 (by decide)
  · exact h h1

theorem not_found_response_bytes :
    generate_not_found_response =
      encodeStr "HTTP/1.1 404 Not Found\r\nConnection: close\r\nContent-Type: text/html\r\nContent-Length: \x7blen(not_found_page)\x7d\r\n\r\n<html><h1>Not found!</h1></html>" := by
  decide

/-! ### The claims -/

/-- C1: the claim says the 404 response carries a Content-Length header whose
value is the computed byte length of the fixed body (32).  The code builds
that header line from a plain string literal, not an f-string, so the value
sent is the uninterpolated placeholder text: the response equals the byte
string with the literal placeholder and differs from the response the claim
describes. -/
theorem C1_notFound_contentLength_is_placeholder :
    generate_not_found_response =
      encodeStr "HTTP/1.1 404 Not Found\r\nConnection: close\r\nContent-Type: text/html\r\nContent-Length: \x7blen(not_found_page)\x7d\r\n\r\n<html><h1>Not found!</h1></html>"
    ∧ generate_not_found_response ≠
      encodeStr "HTTP/1.1 404 Not Found\r\nConnection: close\r\nContent-Type: text/html\r\nContent-Length: 32\r\n\r\n<html><h1>Not found!</h1></html>" :=
  ⟨not_found_response_bytes, by decide⟩

/-- C3: any request whose first space-separated token is not exactly GET
makes the connection handler exit the whole process with status 1, for every
filesystem: the accept loop does not continue. -/
theorem C3_non_get_request_exits_process (fs : FS) (request : String)
    (h : (request_tokens request).headD "" ≠ "GET") :
    handle_connection fs request = ConnResult.exitProcess 1 := by
  simp only [handle_connection, parse_request_line]
  rw [if_pos h]

theorem C3_witness :
    (request_tokens "POST / HTTP/1.1").headD "" ≠ "GET"
    ∧ handle_connection [] "POST / HTTP/1.1" = ConnResult.exitProcess 1 :=
  ⟨by decide, C3_non_get_request_exits_process [] "POST / HTTP/1.1" (by decide)⟩

/-- C6: for every body and content-type label, the OK builder produces
exactly the bytes of
HTTP/1.1 OK 200, Connection: close, Content-Type, Content-Length (the byte
length of the body), a blank line, then the body, with the non-standard
status token order OK 200. -/
theorem C6_ok_response_exact_bytes (data : List Nat) (m : MimeLabel) :
    generate_ok_response data m =
      encodeStr ("HTTP/1.1 OK 200\r\nConnection: close\r\nContent-Type: " ++ m.render
        ++ "\r\nContent-Length: " ++ toString data.length ++ "\r\n\r\n") ++ data :=
  ok_response_bytes data m

/-- C7: the resolver consults the filesystem at exactly the verbatim
concatenation of the root directory and the URI: two filesystems agreeing on
that one path give identical results, with no normalization and no rejection
of `..` segments (the witness resolves a traversal URI like any other). -/
theorem C7_lookup_verbatim_concatenation (fs₁ fs₂ : FS) (uri : String)
    (h : fs_lookup fs₁ (ROOT_DIR ++ uri) = fs_lookup fs₂ (ROOT_DIR ++ uri)) :
    get_request_data fs₁ uri = get_request_data fs₂ uri := by
  simp only [get_request_data]
  rw [h]

theorem C7_witness :
    get_request_data [("public/../secret.txt", FSEntry.file [65] true)] "/../secret.txt"
      = get_request_data
          [("public/../secret.txt", FSEntry.file [65] true),
           ("public/x", FSEntry.file [66] true)]
          "/../secret.txt"
    ∧ (get_request_data [("public/../secret.txt", FSEntry.file [65] true)] "/../secret.txt").1
        = [65] :=
  ⟨C7_lookup_verbatim_concatenation _ _ _ (by decide), by decide⟩

/-- C8: a request line with fewer than two space-separated tokens whose
first token is GET makes the parser fault with an out-of-bounds index into
the token list (`split(' ')[1]`), rather than return a URI. -/
theorem C8_short_get_request_faults (request : String)
    (hlen : (request_tokens request).length < 2)
    (hget : (request_tokens request).headD "" = "GET") :
    parse_request_line request = ParseResult.indexFault := by
  unfold parse_request_line
  cases htk : request_tokens request with
  | nil =>
    rw [htk] at hget
    exact absurd hget (by decide)
  | cons m rest =>
    cases rest with
    | nil =>
      rw [htk] at hget
      simp at hget
      simp [htk, hget]
    | cons u r2 =>
      rw [htk] at hlen
      simp at hlen
      omega

theorem C8_witness :
    (request_tokens "GET").length < 2
    ∧ parse_request_line "GET" = ParseResult.indexFault :=
  ⟨by decide, C8_short_get_request_faults "GET" (by decide) (by decide)⟩

/-- C9: with an argument count other than exactly two positional arguments
(three entries of argv, the program name included) the program exits with
status 1 without reaching the server, and the server is only run when the
count is exactly two. -/
theorem C9_cli_arg_count (argv : List String) :
    (argv.length ≠ 3 → main_entry argv = MainResult.usageExit 1)
    ∧ (∀ h p, main_entry argv = MainResult.run h p → argv.length = 3) := by
  constructor
  · intro h
    unfold main_entry
    simp [h]
  · intro h p hrun
    by_contra hne
    unfold main_entry at hrun
    simp [hne] at hrun

theorem C9_witness : main_entry ["http-server.py"] = MainResult.usageExit 1 :=
  (C9_cli_arg_count ["http-server.py"]).1 (by decide)

/-- C2 counterexample: the claim includes files whose contents are empty, but
an existing, readable, empty regular file is answered with the 404 response:
the loop tests truthiness of the returned bytes, and empty bytes are falsy.
The 404 response is not a success response with the file's (empty) body. -/
theorem C2_empty_file_counterexample :
    handle_connection [("public/empty.txt", FSEntry.file [] true)] "GET /empty.txt HTTP/1.1"
      = ConnResult.reply generate_not_found_response
    ∧ generate_not_found_response
        ≠ generate_ok_response [] (MimeLabel.tuple (some "text/plain") none) :=
  ⟨by decide, by decide⟩

/-- C2 amended: for every valid GET request whose URI resolves to an existing
readable regular file with nonempty contents, the response is the success
response whose Content-Length header is the byte length of the file and
whose body is exactly the file's bytes. -/
theorem C2_file_request_roundtrip (fs : FS) (request uri : String) (contents : List Nat)
    (hparse : parse_request_line request = ParseResult.uri uri)
    (hfs : fs_lookup fs (ROOT_DIR ++ uri) = some (FSEntry.file contents true))
    (hne : contents ≠ []) :
    handle_connection fs request =
      ConnResult.reply (encodeStr ("HTTP/1.1 OK 200\r\nConnection: close\r\nContent-Type: "
        ++ (MimeLabel.tuple (guess_type (ROOT_DIR ++ uri)).1
              (guess_type (ROOT_DIR ++ uri)).2).render
        ++ "\r\nContent-Length: " ++ toString contents.length ++ "\r\n\r\n") ++ contents) := by
  simp only [handle_connection, hparse, get_request_data, hfs]
  simp [hne, ok_response_bytes]

theorem C2_witness :
    handle_connection [("public/a.txt", FSEntry.file [72, 105] true)] "GET /a.txt HTTP/1.1"
      = ConnResult.reply (encodeStr ("HTTP/1.1 OK 200\r\nConnection: close\r\nContent-Type: "
          ++ (MimeLabel.tuple (guess_type (ROOT_DIR ++ "/a.txt")).1
                (guess_type (ROOT_DIR ++ "/a.txt")).2).render
          ++ "\r\nContent-Length: " ++ toString ([72, 105] : List Nat).length ++ "\r\n\r\n")
          ++ [72, 105]) :=
  C2_file_request_roundtrip _ _ _ _ (by decide) (by decide) (by decide)

/-- C4 counterexample: for a GET of an existing empty directory the content
type is the empty label, not text/plain, because the source assigns
text/plain inside the per-entry loop, which never runs. -/
theorem C4_empty_dir_counterexample :
    (get_request_data [("public/d", FSEntry.dir [] true)] "/d").2 = MimeLabel.str ""
    ∧ MimeLabel.str "" ≠ MimeLabel.str "text/plain" :=
  ⟨by decide, by decide⟩

/-- C4 amended: for every GET of an existing listable directory (none of
whose entry names, nor the URI, contains a newline) the body's newline count
is the number of entries plus 2 (header line + blank line + one line per
entry), and the content type is text/plain exactly when the directory is
nonempty (it is the empty label for an empty directory). -/
theorem C4_directory_listing (fs : FS) (uri : String) (entries : List String)
    (hfs : fs_lookup fs (ROOT_DIR ++ uri) = some (FSEntry.dir entries true))
    (huri : '\n' ∉ uri.data)
    (hent : ∀ e ∈ entries, '\n' ∉ e.data) :
    count_nl (get_request_data fs uri).1 = entries.length + 2
    ∧ (get_request_data fs uri).2
        = (if entries.isEmpty then MimeLabel.str "" else MimeLabel.str "text/plain") := by
  simp only [get_request_data, hfs]
  constructor
  · rw [dir_fold_fst, count_nl_append, count_nl_header _ (no_nl_root_path uri huri),
      count_nl_dir_entries entries hent]
    omega
  · rw [dir_fold_snd]

theorem C4_witness :
    count_nl (get_request_data [("public/d", FSEntry.dir ["x", "y"] true)] "/d").1
        = (["x", "y"] : List String).length + 2
    ∧ (get_request_data [("public/d", FSEntry.dir ["x", "y"] true)] "/d").2
        = (if (["x", "y"] : List String).isEmpty then MimeLabel.str ""
           else MimeLabel.str "text/plain") :=
  C4_directory_listing _ _ _ (by decide) (by decide) (by decide)

/-- C5 counterexample: a directory that exists but whose listing fails is an
OS-level access failure, yet the resolver returns the nonempty header bytes
(the header is appended before the failing listdir call) and the server
consequently replies with a 200 response, not the 404. -/
theorem C5_unlistable_dir_counterexample :
    get_request_data [("public/locked", FSEntry.dir ["secret.txt"] false)] "/locked"
      = (encodeStr "Contents of public/locked\n\n", MimeLabel.str "")
    ∧ encodeStr "Contents of public/locked\n\n" ≠ []
    ∧ handle_connection [("public/locked", FSEntry.dir ["secret.txt"] false)]
        "GET /locked HTTP/1.1"
      = ConnResult.reply
          (generate_ok_response (encodeStr "Contents of public/locked\n\n")
            (MimeLabel.str "")) :=
  ⟨by decide, by decide, by decide⟩

/-- C5 amended: the resolver returns empty bytes and the empty label exactly
when the path is absent or is a non-directory that cannot be opened (a
directory whose listing fails instead yields nonempty partial bytes); and
whenever the resolver returns empty bytes, the server answers the connection
with the 404 response and the loop continues. -/
theorem C5_notfound_signal :
    (∀ (fs : FS) (uri : String),
      ((get_request_data fs uri).1 = [] ∧ (get_request_data fs uri).2 = MimeLabel.str "")
        ↔ (fs_lookup fs (ROOT_DIR ++ uri) = none
           ∨ ∃ c, fs_lookup fs (ROOT_DIR ++ uri) = some (FSEntry.file c false)))
    ∧ (∀ (fs : FS) (request uri : String),
        parse_request_line request = ParseResult.uri uri →
        (get_request_data fs uri).1 = [] →
        handle_connection fs request = ConnResult.reply generate_not_found_response) := by
  constructor
  · intro fs uri
    simp only [get_request_data]
    cases hl : fs_lookup fs (ROOT_DIR ++ uri) with
    | none => simp
    | some e =>
      cases e with
      | file c r =>
        cases r with
        | false => simp
        | true => simp
      | dir entries l =>
        cases l with
        | false =>
          constructor
          · rintro ⟨h1, _⟩
            exact absurd h1 (contents_header_ne_nil _)
          · rintro (h1 | ⟨c, h1⟩) <;> simp at h1
        | true =>
          constructor
          · rintro ⟨h1, _⟩
            rw [dir_fold_fst] at h1
            exact absurd (List.append_eq_nil.mp h1).1 (contents_header_ne_nil _)
          · rintro (h1 | ⟨c, h1⟩) <;> simp at h1
  · intro fs request uri hparse hempty
    simp only [handle_connection, hparse]
    simp [hempty]

theorem C5_witness :
    ((get_request_data [] "/nope").1 = []
      ∧ (get_request_data [] "/nope").2 = MimeLabel.str "")
    ∧ handle_connection [] "GET /nope HTTP/1.1"
        = ConnResult.reply generate_not_found_response :=
  ⟨(C5_notfound_signal.1 [] "/nope").mpr (Or.inl (by decide)),
   C5_notfound_signal.2 [] "GET /nope HTTP/1.1" "/nope" (by decide) (by decide)⟩

/-- C10: for every existing readable regular file, the content-type component
the resolver returns is the (type, encoding) 2-tuple of the extension-based
guesser (not a plain string), and the 200 response for such a file with
nonempty contents carries a Content-Type header holding the Python textual
rendering of that tuple. -/
theorem C10_mime_tuple_rendering (fs : FS) (request uri : String) (contents : List Nat)
    (hfs : fs_lookup fs (ROOT_DIR ++ uri) = some (FSEntry.file contents true)) :
    (get_request_data fs uri).2
      = MimeLabel.tuple (guess_type (ROOT_DIR ++ uri)).1 (guess_type (ROOT_DIR ++ uri)).2
    ∧ (contents ≠ [] → parse_request_line request = ParseResult.uri uri →
        ∃ pre post, handle_connection fs request = ConnResult.reply (pre
          ++ encodeStr ("Content-Type: ("
              ++ pyRepr (guess_type (ROOT_DIR ++ uri)).1 ++ ", "
              ++ pyRepr (guess_type (ROOT_DIR ++ uri)).2 ++ ")\r\n")
          ++ post)) := by
  constructor
  · simp only [get_request_data, hfs]
  · intro hne hparse
    refine ⟨encodeStr "HTTP/1.1 OK 200\r\n" ++ encodeStr "Connection: close\r\n",
      encodeStr ("Content-Length: " ++ toString contents.length ++ "\r\n\r\n") ++ contents, ?_⟩
    simp only [handle_connection, hparse, get_request_data, hfs]
    rw [if_pos hne, ok_response_bytes]
    have hA : encodeStr "HTTP/1.1 OK 200\r\nConnection: close\r\nContent-Type: "
        = encodeStr "HTTP/1.1 OK 200\r\n" ++ encodeStr "Connection: close\r\n"
          ++ encodeStr "Content-Type: " := by decide
    have hB : encodeStr "Content-Type: ("
        = encodeStr "Content-Type: " ++ encodeStr "(" := by decide
    have hC : encodeStr "\r\nContent-Length: "
        = encodeStr "\r\n" ++ encodeStr "Content-Length: " := by decide
    have hD : encodeStr ")\r\n" = encodeStr ")" ++ encodeStr "\r\n" := by decide
    simp only [MimeLabel.render, encodeStr_append, hA, hB, hC, hD, List.append_assoc]

theorem C10_witness :
    ∃ pre post,
      handle_connection [("public/index.html", FSEntry.file [60] true)]
          "GET /index.html HTTP/1.1"
        = ConnResult.reply (pre
            ++ encodeStr ("Content-Type: ("
                ++ pyRepr (guess_type (ROOT_DIR ++ "/index.html")).1 ++ ", "
                ++ pyRepr (guess_type (ROOT_DIR ++ "/index.html")).2 ++ ")\r\n")
            ++ post) :=
  (C10_mime_tuple_rendering [("public/index.html", FSEntry.file [60] true)]
    "GET /index.html HTTP/1.1" "/index.html" [60] (by decide)).2 (by decide) (by decide)

end HttpServer
